import Mathlib

/-!
Verification development for the bgNews deduplicated publication tracker.

The Python sources (`bg_scraper.py`, `src/bg_fb_share.py`,
`src/bg_scraper_selenium.py`) are shallowly embedded below:

* Python `dict` ledgers become association lists with unique-key
  insert-or-update semantics (`dictInsert`, `dictGet?`, `dictContains`).
* The persisted ledger file becomes the `Storage` type with three states
  (missing file, corrupt/unparseable file, parseable data), matching the
  branch structure of `load_sent_posts` / `load_shared_posts`.
* `hashlib.md5(...).hexdigest()` is a Python-library primitive; the
  embedding abstracts it as a parameter `md5hex : List Nat → String`
  applied to the UTF-8 byte encoding that the source builds explicitly.
* Each pipeline `main` is embedded from its deduplication steps onward
  (load, prune, filter, publish loop with ledger updates), with the
  external publish step (Messenger send / Selenium share) as a boolean
  oracle, and the observable actions recorded as an event trace `Ev`.
-/

/-- Association-list model of a Python `dict` whose keys are strings:
lookup returns the first binding of the key. -/
def dictGet? (k : String) : List (String × String) → Option String
  | [] => none
  | (k2, v2) :: rest => if k2 = k then some v2 else dictGet? k rest

/-- `d[k] = v` on a Python `dict`: replace the binding in place if the key
is present, otherwise append a new binding. -/
def dictInsert (k v : String) : List (String × String) → List (String × String)
  | [] => [(k, v)]
  | (k2, v2) :: rest =>
      if k2 = k then (k, v) :: rest else (k2, v2) :: dictInsert k v rest

/-- `k in d` on a Python `dict`. -/
def dictContains (k : String) (d : List (String × String)) : Bool :=
  (dictGet? k d).isSome

/-- State of the persisted ledger resource: the file is absent, or present
but unparseable (the `json.JSONDecodeError` / `IOError` branch), or holds a
parsed mapping. -/
inductive Storage where
  | missing
  | corrupt
  | data (m : List (String × String))
deriving DecidableEq

/-- Observable actions of a pipeline run: a publish attempt for a
fingerprint with its reported outcome, an in-memory ledger update
(`sent_posts[id] = timestamp`), and a write of the ledger to storage. -/
inductive Ev where
  | publish (id : String) (ok : Bool)
  | mark (id : String)
  | save (led : List (String × String))
deriving DecidableEq

/-- Result of an embedded pipeline run: the batch that survived the
dedup filter, the final in-memory ledger, and the event trace. -/
structure RunResult (α : Type) where
  newPosts : List α
  finalLed : List (String × String)
  trace : List Ev

/-- Fingerprints of the publish attempts in a trace, in order. -/
def publishedIds (t : List Ev) : List String :=
  t.filterMap (fun e => match e with | Ev.publish i _ => some i | _ => none)

/-- Number of storage writes in a trace. -/
def countSaves (t : List Ev) : Nat :=
  (t.filterMap (fun e => match e with | Ev.save d => some d | _ => none)).length

/-- Python `s[:n]` on a `str`: the first `n` characters (code points). -/
def strTake (s : String) (n : Nat) : String := ⟨s.data.take n⟩

/-- UTF-8 encoding of one code point (Python `str.encode('utf-8')`). -/
def utf8EncodeChar (c : Char) : List Nat :=
  let n := c.toNat
  if n < 0x80 then [n]
  else if n < 0x800 then
    [0xC0 ||| (n >>> 6), 0x80 ||| (n &&& 0x3F)]
  else if n < 0x10000 then
    [0xE0 ||| (n >>> 12), 0x80 ||| ((n >>> 6) &&& 0x3F), 0x80 ||| (n &&& 0x3F)]
  else
    [0xF0 ||| (n >>> 18), 0x80 ||| ((n >>> 12) &&& 0x3F),
     0x80 ||| ((n >>> 6) &&& 0x3F), 0x80 ||| (n &&& 0x3F)]

/-- UTF-8 encoding of a string as a byte list. -/
def utf8Encode (s : String) : List Nat :=
  (s.data.map utf8EncodeChar).flatten

/-- Python `<` on `str` values: strict lexicographic comparison by code
point, a shorter string preceding any longer one it is a prefix of. -/
def pyStrLt : List Char → List Char → Bool
  | [], [] => false
  | [], _ :: _ => true
  | _ :: _, [] => false
  | a :: as, b :: bs =>
      if a < b then true else if b < a then false else pyStrLt as bs

/-- Python `a < b` for strings. -/
def pyLt (a b : String) : Bool := pyStrLt a.data b.data

namespace BgScraper

/-- A post record as consumed by the dedup layer of `bg_scraper.py`:
the optional `link` and `text` fields (`post.get('link')`,
`post.get('text', '')`). -/
structure Post where
  link : Option String
  text : Option String
deriving DecidableEq

/-- `load_sent_posts` (bg_scraper.py:73-81): missing file and parse
failure both yield `{}`. -/
def load_sent_posts : Storage → List (String × String)
  | Storage.missing => []
  | Storage.corrupt => []
  | Storage.data m => m

/-- `save_sent_posts` (bg_scraper.py:84-87): full overwrite of the file. -/
def save_sent_posts (m : List (String × String)) : Storage := Storage.data m

/-- `cleanup_old_posts` (bg_scraper.py:90-100): keep exactly the entries
whose timestamp string is lexically greater than the cutoff string
(`timestamp > cutoff_str`); `cutoff` stands for
`(datetime.now() - timedelta(days=7)).isoformat()`. -/
def cleanup_old_posts (cutoff : String) (sent : List (String × String)) :
    List (String × String) :=
  sent.filter (fun kv => pyLt cutoff kv.2)

/-- `get_post_id` (bg_scraper.py:103-109): the link when truthy, else the
hex digest (`md5hex`) of the UTF-8 bytes of the first 200 characters of
the text. -/
def get_post_id (md5hex : List Nat → String) (post : Post) : String :=
  if post.link.getD "" ≠ "" then post.link.getD ""
  else md5hex (utf8Encode (strTake (post.text.getD "") 200))

/-- `is_already_sent` (bg_scraper.py:112-115). -/
def is_already_sent (md5hex : List Nat → String) (post : Post)
    (sent : List (String × String)) : Bool :=
  dictContains (get_post_id md5hex post) sent

/-- `mark_as_sent` (bg_scraper.py:118-121): `sent_posts[post_id] = now`. -/
def mark_as_sent (md5hex : List Nat → String) (post : Post) (now : String)
    (sent : List (String × String)) : List (String × String) :=
  dictInsert (get_post_id md5hex post) now sent

/-- The dedup filter of `main` (bg_scraper.py:386):
`[p for p in all_posts if not is_already_sent(p, sent_posts)]`. -/
def filterUnpublished (md5hex : List Nat → String)
    (sent : List (String × String)) (posts : List Post) : List Post :=
  posts.filter (fun p => !(is_already_sent md5hex p sent))

/-- The notification loop of `main` (bg_scraper.py:399-401): every post in
`new_posts` is notified (outcome `succ p` is computed by
`send_to_all_recipients` but discarded by `notify_post`) and then marked
as sent unconditionally; no save happens inside the loop. -/
def scraperLoop (md5hex : List Nat → String) (succ : Post → Bool)
    (now : String) : List Post → List (String × String) →
    List (String × String) × List Ev
  | [], d => (d, [])
  | p :: rest, d =>
      let i := get_post_id md5hex p
      let r := scraperLoop md5hex succ now rest (dictInsert i now d)
      (r.1, Ev.publish i (succ p) :: Ev.mark i :: r.2)

/-- `main` of bg_scraper.py from the dedup steps on (lines 338-339 and
386-406): load, prune, filter against that snapshot, run the loop, then a
single `save_sent_posts` at the end (both branches of the final `if`
save exactly once). -/
def bgScraperRun (md5hex : List Nat → String) (succ : Post → Bool)
    (cutoff now : String) (posts : List Post) (storage : Storage) :
    RunResult Post :=
  let sent1 := cleanup_old_posts cutoff (load_sent_posts storage)
  let news := filterUnpublished md5hex sent1 posts
  let r := scraperLoop md5hex succ now news sent1
  ⟨news, r.1, r.2 ++ [Ev.save r.1]⟩

end BgScraper

namespace FbShare

/-- A scraped post as consumed by the dedup layer of `bg_fb_share.py`:
only its permalink `url` matters to the tracker. -/
structure SharePost where
  url : String
deriving DecidableEq

/-- `load_shared_posts` (bg_fb_share.py:143-151): missing file and parse
failure both yield `{}`. -/
def load_shared_posts : Storage → List (String × String)
  | Storage.missing => []
  | Storage.corrupt => []
  | Storage.data m => m

/-- `save_shared_posts` (bg_fb_share.py:154-157). -/
def save_shared_posts (m : List (String × String)) : Storage := Storage.data m

/-- `cleanup_old_posts` (bg_fb_share.py:160-175): same filter as the
scraper's, `timestamp > cutoff_str`. -/
def cleanup_old_posts (cutoff : String) (shared : List (String × String)) :
    List (String × String) :=
  shared.filter (fun kv => pyLt cutoff kv.2)

/-- The characters that `url.split('?')[0]` keeps: everything other than
the separator `?`. -/
def notQM (c : Char) : Bool := c != '?'

/-- `normalize_post_url` (bg_fb_share.py:182-187): `url.split('?')[0]`,
i.e. the characters before the first `?`; empty input returned as is. -/
def normalize_post_url (url : String) : String :=
  if url = "" then url else ⟨url.data.takeWhile notQM⟩

/-- The dedup filter of `main` (bg_fb_share.py:746-750): keep the posts
whose normalized URL is not in `shared_posts`; `shared_posts` is not
mutated while filtering. -/
def fbShareNew (shared : List (String × String)) (posts : List SharePost) :
    List SharePost :=
  posts.filter (fun p => !(dictContains (normalize_post_url p.url) shared))

/-- The share loop of `main` (bg_fb_share.py:784-799): attempt
`share_post`; only on success record the normalized URL in the ledger and
save the file immediately. -/
def fbShareLoop (succ : SharePost → Bool) (now : String) :
    List SharePost → List (String × String) →
    List (String × String) × List Ev
  | [], d => (d, [])
  | p :: rest, d =>
      let i := normalize_post_url p.url
      if succ p then
        let d2 := dictInsert i now d
        let r := fbShareLoop succ now rest d2
        (r.1, Ev.publish i true :: Ev.mark i :: Ev.save d2 :: r.2)
      else
        let r := fbShareLoop succ now rest d
        (r.1, Ev.publish i false :: r.2)

/-- `main` of bg_fb_share.py from the dedup steps on (lines 733-735 and
746-799): load, prune, save the pruned ledger, filter against that
snapshot, then the share loop. -/
def fbShareRun (succ : SharePost → Bool) (cutoff now : String)
    (posts : List SharePost) (storage : Storage) : RunResult SharePost :=
  let shared1 := cleanup_old_posts cutoff (load_shared_posts storage)
  let news := fbShareNew shared1 posts
  let r := fbShareLoop succ now news shared1
  ⟨news, r.1, Ev.save shared1 :: r.2⟩

end FbShare

/-- Ledger discipline asserted by the spec for a run trace: every publish
attempt that reports success is immediately followed by the in-memory
ledger update for the same fingerprint and then by a save whose contents
include that fingerprint; a ledger update never appears anywhere else (in
particular never after a failed attempt). -/
def c2scan : List Ev → Bool
  | [] => true
  | Ev.publish i true :: Ev.mark j :: Ev.save d :: rest =>
      i == j && dictContains j d && c2scan rest
  | Ev.publish _ true :: _ => false
  | Ev.publish _ false :: rest => c2scan rest
  | Ev.save _ :: rest => c2scan rest
  | Ev.mark _ :: _ => false

namespace Selenium

/-- An article record produced by the Selenium scraper's scrape functions:
`link`, `text`, `source` tag and precomputed dedup `id`. -/
structure SePost where
  link : String
  text : String
  source : String
  id : String
deriving DecidableEq

/-- `load_sent_posts` (bg_scraper_selenium.py:134-141): missing file and
any load failure both yield `{}`. -/
def load_sent_posts : Storage → List (String × String)
  | Storage.missing => []
  | Storage.corrupt => []
  | Storage.data m => m

/-- `cleanup_old_posts` (bg_scraper_selenium.py:151-154). -/
def cleanup_old_posts (cutoff : String) (sent : List (String × String)) :
    List (String × String) :=
  sent.filter (fun kv => pyLt cutoff kv.2)

/-- One attempt of `re.search(r'dziennik\.walbrzych\.pl/([^/?]+)', url)`
at a fixed position: the literal must match and be followed by at least
one character other than `/` and `?`; the greedy group is the maximal such
run. -/
def dziennikTry (s : List Char) : Option (List Char) :=
  if "dziennik.walbrzych.pl/".data.isPrefixOf s then
    let g := (s.drop 22).takeWhile (fun c => c ≠ '/' && c ≠ '?')
    if g = [] then none else some g
  else none

/-- One attempt of `re.search(r'/(\d+),', url)` at a fixed position: a
slash, then a maximal nonempty digit run, then a comma (backtracking
inside `\d+` cannot help, since any shorter run is followed by a digit,
not a comma). `\d` is modelled as the ASCII digits. -/
def policjaTry : List Char → Option (List Char)
  | '/' :: rest =>
      let ds := rest.takeWhile Char.isDigit
      if ds = [] then none
      else match rest.drop ds.length with
        | ',' :: _ => some ds
        | _ => none
  | _ => none

/-- One attempt of `re.search(r'/pl/\d+_[^/]+/(\d+)_', url)` at a fixed
position; each greedy piece is forced to its maximal run because the
character after any shorter run would itself satisfy the piece and not
the following literal. -/
def tvwTry (s : List Char) : Option (List Char) :=
  if "/pl/".data.isPrefixOf s then
    let r1 := s.drop 4
    let d1 := r1.takeWhile Char.isDigit
    if d1 = [] then none
    else match r1.drop d1.length with
      | '_' :: r2 =>
          let seg := r2.takeWhile (fun c => c ≠ '/')
          if seg = [] then none
          else match r2.drop seg.length with
            | '/' :: r3 =>
                let d2 := r3.takeWhile Char.isDigit
                if d2 = [] then none
                else match r3.drop d2.length with
                  | '_' :: _ => some d2
                  | _ => none
            | _ => none
      | _ => none
  else none

/-- `re.search`: try the pattern at each position left to right and
return the first (leftmost) match. -/
def reSearch (tryAt : List Char → Option (List Char)) :
    List Char → Option (List Char)
  | [] => tryAt []
  | c :: rest =>
      match tryAt (c :: rest) with
      | some g => some g
      | none => reSearch tryAt rest

/-- `get_post_id` (bg_scraper_selenium.py:158-182): empty URL maps to
`""`; otherwise the source-specific pattern is tried and, on a match, the
prefixed capture group is returned; in every other case the URL is
returned unchanged. -/
def get_post_id (url : String) (tag : String) : String :=
  if url = "" then ""
  else if tag = "dziennik" then
    match reSearch dziennikTry url.data with
    | some g => "dziennik_" ++ String.mk g
    | none => url
  else if tag = "policja" then
    match reSearch policjaTry url.data with
    | some g => "policja_" ++ String.mk g
    | none => url
  else if tag = "tvwalbrzych" then
    match reSearch tvwTry url.data with
    | some g => "tvwalbrzych_" ++ String.mk g
    | none => url
  else url

/-- The dedup filter of `main` (bg_scraper_selenium.py:1078):
`[p for p in all_posts if p.get('id') and p['id'] not in sent_posts]`. -/
def seleniumNew (sent : List (String × String)) (posts : List SePost) :
    List SePost :=
  posts.filter (fun p => p.id != "" && !(dictContains p.id sent))

/-- One posting loop of `main` (bg_scraper_selenium.py:1109-1125 and the
two analogous loops): attempt `post_to_facebook`; only on success record
the id and save immediately. -/
def seLoop (succ : SePost → Bool) (now : String) :
    List SePost → List (String × String) →
    List (String × String) × List Ev
  | [], d => (d, [])
  | p :: rest, d =>
      if succ p then
        let d2 := dictInsert p.id now d
        let r := seLoop succ now rest d2
        (r.1, Ev.publish p.id true :: Ev.mark p.id :: Ev.save d2 :: r.2)
      else
        let r := seLoop succ now rest d
        (r.1, Ev.publish p.id false :: r.2)

/-- `main` of bg_scraper_selenium.py from the dedup steps on (lines
1054-1055, 1078, 1087-1089, 1109-1172): load, prune, filter, split the
survivors by source tag, and run the three posting loops in order. -/
def seleniumRun (succ : SePost → Bool) (cutoff now : String)
    (posts : List SePost) (storage : Storage) : RunResult SePost :=
  let sent1 := cleanup_old_posts cutoff (load_sent_posts storage)
  let news := seleniumNew sent1 posts
  let dz := news.filter (fun p => p.source == "dziennik")
  let po := news.filter (fun p => p.source == "policja")
  let tv := news.filter (fun p => p.source == "tvwalbrzych")
  let r1 := seLoop succ now dz sent1
  let r2 := seLoop succ now po r1.1
  let r3 := seLoop succ now tv r2.1
  ⟨news, r3.1, r1.2 ++ r2.2 ++ r3.2⟩

end Selenium

/-! ## Helper lemmas -/

theorem dictGet?_insert_self (k v : String) (d : List (String × String)) :
    dictGet? k (dictInsert k v d) = some v := by
  induction d with
  | nil => simp [dictInsert, dictGet?]
  | cons a rest ih =>
      by_cases h : a.1 = k
      · simp [dictInsert, h, dictGet?]
      · simp [dictInsert, h, dictGet?, ih]

theorem dictGet?_insert_ne (k v k2 : String) (d : List (String × String))
    (h : k2 ≠ k) : dictGet? k2 (dictInsert k v d) = dictGet? k2 d := by
  have hk : ¬ k = k2 := fun hh => h hh.symm
  induction d with
  | nil => simp [dictInsert, dictGet?, hk]
  | cons a rest ih =>
      by_cases ha : a.1 = k
      · have ha2 : ¬ a.1 = k2 := by rw [ha]; exact hk
        simp [dictInsert, ha, dictGet?, hk, ha2]
      · simp [dictInsert, ha, dictGet?, ih]

theorem dictContains_insert_self (k v : String) (d : List (String × String)) :
    dictContains k (dictInsert k v d) = true := by
  simp [dictContains, dictGet?_insert_self]

theorem takeWhile_append_stop {α : Type} (p : α → Bool) (u qs : List α)
    (x : α) (h : ∀ c ∈ u, p c = true) (hx : p x = false) :
    (u ++ x :: qs).takeWhile p = u := by
  induction u with
  | nil => simp [List.takeWhile, hx]
  | cons c rest ih =>
      have hc : p c = true := h c (by simp)
      simp only [List.cons_append, List.takeWhile_cons, hc, if_true]
      simp [ih (fun d hd => h d (by simp [hd]))]

theorem takeWhile_all {α : Type} (p : α → Bool) (u : List α)
    (h : ∀ c ∈ u, p c = true) : u.takeWhile p = u := by
  induction u with
  | nil => rfl
  | cons c rest ih =>
      have hc : p c = true := h c (by simp)
      simp only [List.takeWhile_cons, hc, if_true]
      simp [ih (fun d hd => h d (by simp [hd]))]

/-! ## Claim theorems -/

/-- C1: `get_post_id` returns the post's link when that field is present
and non-empty (truthy), otherwise the hex digest of the UTF-8 encoding of
the first 200 characters of the post's text; every post with no link and
empty text is mapped to the single fingerprint of the empty prefix. -/
theorem get_post_id_spec (md5hex : List Nat → String) (p : BgScraper.Post) :
    (p.link.getD "" ≠ "" →
      BgScraper.get_post_id md5hex p = p.link.getD "") ∧
    (p.link.getD "" = "" →
      BgScraper.get_post_id md5hex p =
        md5hex (utf8Encode (strTake (p.text.getD "") 200))) ∧
    (p.link.getD "" = "" → p.text.getD "" = "" →
      BgScraper.get_post_id md5hex p = md5hex (utf8Encode "")) := by
  refine ⟨fun h => ?_, fun h => ?_, fun h1 h2 => ?_⟩
  · simp [BgScraper.get_post_id, h]
  · simp [BgScraper.get_post_id, h]
  · have he : strTake "" 200 = "" := rfl
    simp [BgScraper.get_post_id, h1, h2, he]

theorem get_post_id_spec_witness :
    BgScraper.get_post_id (fun _ => "H") ⟨some "https://a/1", some "txt"⟩ =
      "https://a/1" ∧
    BgScraper.get_post_id (fun bs => toString bs.length) ⟨none, some "ab"⟩ =
      "2" ∧
    BgScraper.get_post_id (fun _ => "H") ⟨none, some ""⟩ = "H" :=
  ⟨(get_post_id_spec (fun _ => "H") ⟨some "https://a/1", some "txt"⟩).1
      (by decide),
   ((get_post_id_spec (fun bs => toString bs.length) ⟨none, some "ab"⟩).2.1
      (by decide)).trans (by decide),
   ((get_post_id_spec (fun _ => "H") ⟨none, some ""⟩).2.2
      (by decide) (by decide)).trans (by decide)⟩

/-- C3: after `mark_as_sent`, the post is reported as already sent and
filtered out, both against the in-memory ledger and after a fresh load of
the saved ledger. -/
theorem mark_then_excluded (md5hex : List Nat → String) (p : BgScraper.Post)
    (now : String) (sent : List (String × String)) :
    BgScraper.is_already_sent md5hex p
      (BgScraper.mark_as_sent md5hex p now sent) = true ∧
    BgScraper.filterUnpublished md5hex
      (BgScraper.mark_as_sent md5hex p now sent) [p] = [] ∧
    BgScraper.is_already_sent md5hex p
      (BgScraper.load_sent_posts
        (BgScraper.save_sent_posts
          (BgScraper.mark_as_sent md5hex p now sent))) = true := by
  refine ⟨?_, ?_, ?_⟩
  · simp [BgScraper.is_already_sent, BgScraper.mark_as_sent,
      dictContains_insert_self]
  · simp [BgScraper.filterUnpublished, BgScraper.is_already_sent,
      BgScraper.mark_as_sent, dictContains_insert_self]
  · simp [BgScraper.load_sent_posts, BgScraper.save_sent_posts,
      BgScraper.is_already_sent, BgScraper.mark_as_sent,
      dictContains_insert_self]

/-- C5: loading the ledger returns an empty mapping both when the storage
resource is missing and when it exists but is corrupt/unparseable, in
both pipelines. -/
theorem load_absorbs_failures :
    BgScraper.load_sent_posts Storage.missing = [] ∧
    BgScraper.load_sent_posts Storage.corrupt = [] ∧
    FbShare.load_shared_posts Storage.missing = [] ∧
    FbShare.load_shared_posts Storage.corrupt = [] :=
  ⟨rfl, rfl, rfl, rfl⟩

/-- C9: `mark_as_sent` changes at most the entry at key
`get_post_id post`; every other key's presence and value are unchanged. -/
theorem mark_as_sent_frame (md5hex : List Nat → String) (p : BgScraper.Post)
    (now : String) (sent : List (String × String)) (k : String)
    (h : k ≠ BgScraper.get_post_id md5hex p) :
    dictGet? k (BgScraper.mark_as_sent md5hex p now sent) =
      dictGet? k sent := by
  simp [BgScraper.mark_as_sent, dictGet?_insert_ne _ _ _ _ h]

theorem mark_as_sent_frame_witness :
    dictGet? "other" (BgScraper.mark_as_sent (fun _ => "H")
      ⟨some "https://a/1", none⟩ "T" [("other", "T0")]) =
      dictGet? "other" [("other", "T0")] :=
  mark_as_sent_frame (fun _ => "H") ⟨some "https://a/1", none⟩ "T"
    [("other", "T0")] "other" (by decide)

/-- C4: `cleanup_old_posts` keeps an entry iff the input holds it with a
timestamp string lexically greater than the cutoff string, values
unchanged; consequently, under an order-preserving ISO encoding of times,
an entry recorded at time `T` survives a prune at query time `now`
exactly when `now < T + w` for retention window `w`. -/
theorem cleanup_old_posts_spec (cutoff : String)
    (led : List (String × String)) (k v : String) (iso : Int → String)
    (now T w : Int) (k2 : String) (led2 : List (String × String))
    (hiso : pyLt (iso (now - w)) (iso T) = true ↔ now - w < T) :
    ((k, v) ∈ BgScraper.cleanup_old_posts cutoff led ↔
      (k, v) ∈ led ∧ pyLt cutoff v = true) ∧
    ((k2, iso T) ∈ BgScraper.cleanup_old_posts (iso (now - w)) led2 ↔
      (k2, iso T) ∈ led2 ∧ now < T + w) := by
  constructor
  · simp [BgScraper.cleanup_old_posts, List.mem_filter]
  · have h2 : now - w < T ↔ now < T + w := by omega
    simp [BgScraper.cleanup_old_posts, List.mem_filter, hiso, h2]

theorem cleanup_old_posts_spec_witness :
    ("a", "2026-01-05") ∈ BgScraper.cleanup_old_posts "2026-01-03"
      [("a", "2026-01-05"), ("b", "2026-01-01")] ∧
    ("x", "B") ∈ BgScraper.cleanup_old_posts "A" [("x", "B")] :=
  ⟨((cleanup_old_posts_spec "2026-01-03"
      [("a", "2026-01-05"), ("b", "2026-01-01")] "a" "2026-01-05"
      (fun n => if n ≤ 0 then "A" else "B") 3 2 3 "x" [("x", "B")]
      (by decide)).1).mpr (by decide),
   ((cleanup_old_posts_spec "2026-01-03"
      [("a", "2026-01-05"), ("b", "2026-01-01")] "a" "2026-01-05"
      (fun n => if n ≤ 0 then "A" else "B") 3 2 3 "x" [("x", "B")]
      (by decide)).2).mpr (by decide)⟩

theorem c2scan_fbShareLoop (succ : FbShare.SharePost → Bool) (now : String)
    (l : List FbShare.SharePost) (d : List (String × String)) :
    c2scan (FbShare.fbShareLoop succ now l d).2 = true := by
  induction l generalizing d with
  | nil => rfl
  | cons p rest ih =>
      cases hs : succ p
      · simp [FbShare.fbShareLoop, hs, c2scan, ih]
      · simp [FbShare.fbShareLoop, hs, c2scan, dictContains_insert_self, ih]

/-- C2 counterexample: in bg_scraper.py's main, with a single candidate
post whose every Messenger send fails, the run still adds the post's
fingerprint to the ledger (the `mark` directly follows the failed publish
attempt), and with two successfully notified posts the ledger is written
exactly once, at the end of the run, not after each publish. -/
theorem ledger_discipline_counterexample :
    (BgScraper.bgScraperRun (fun _ => "H") (fun _ => false) "" "T"
        [⟨some "https://a/1", some "t1"⟩] Storage.missing).trace =
      [Ev.publish "https://a/1" false, Ev.mark "https://a/1",
       Ev.save [("https://a/1", "T")]] ∧
    dictContains "https://a/1"
      (BgScraper.bgScraperRun (fun _ => "H") (fun _ => false) "" "T"
        [⟨some "https://a/1", some "t1"⟩] Storage.missing).finalLed = true ∧
    countSaves
      (BgScraper.bgScraperRun (fun _ => "H") (fun _ => true) "" "T"
        [⟨some "https://a/1", some "t1"⟩, ⟨some "https://a/2", some "t2"⟩]
        Storage.missing).trace = 1 := by
  refine ⟨?_, ?_, ?_⟩ <;> decide

/-- C2 amended: in bg_fb_share.py's main the claim holds — every publish
attempt that reports success is immediately followed by the ledger update
for that fingerprint and by a save of the updated ledger, and a
fingerprint is never recorded after a failed attempt. (In bg_scraper.py,
by contrast, `mark_as_sent` runs unconditionally after `notify_post` and
the ledger is saved once at end of run; see the counterexample.) -/
theorem fb_share_ledger_discipline (succ : FbShare.SharePost → Bool)
    (cutoff now : String) (posts : List FbShare.SharePost)
    (storage : Storage) :
    c2scan (FbShare.fbShareRun succ cutoff now posts storage).trace = true := by
  have h := c2scan_fbShareLoop succ now
    (FbShare.fbShareNew
      (FbShare.cleanup_old_posts cutoff (FbShare.load_shared_posts storage))
      posts)
    (FbShare.cleanup_old_posts cutoff (FbShare.load_shared_posts storage))
  simpa [FbShare.fbShareRun, c2scan] using h

/-- C6 counterexample: trailing-slash variants are not normalized away by
`normalize_post_url`, and bg_scraper.py's `get_post_id` uses the link
verbatim, so even query-string variants fingerprint differently there. -/
theorem url_normalization_counterexample :
    FbShare.normalize_post_url "https://x/y/" ≠
      FbShare.normalize_post_url "https://x/y" ∧
    BgScraper.get_post_id (fun _ => "H")
        ⟨some "https://x/y?fbclid=abc", none⟩ ≠
      BgScraper.get_post_id (fun _ => "H") ⟨some "https://x/y", none⟩ := by
  refine ⟨?_, ?_⟩ <;> decide

/-- C6 amended: `normalize_post_url` strips exactly the query string, so
two URLs that differ only in their query string normalize to the same
fingerprint, but a URL with a trailing slash added normalizes to a
different fingerprint than without it. -/
theorem normalize_post_url_spec (u qs : List Char) (hq : '?' ∉ u)
    (hne : u ≠ []) :
    FbShare.normalize_post_url ⟨u ++ '?' :: qs⟩ =
      FbShare.normalize_post_url ⟨u⟩ ∧
    FbShare.normalize_post_url ⟨u ++ ['/']⟩ ≠
      FbShare.normalize_post_url ⟨u⟩ := by
  have hp : ∀ c ∈ u, FbShare.notQM c = true := by
    intro c hc
    have : c ≠ '?' := fun hcon => hq (hcon ▸ hc)
    simp [FbShare.notQM, this]
  have h1 : (⟨u ++ '?' :: qs⟩ : String) ≠ "" := by
    intro hcon
    have := congrArg String.data hcon
    simp at this
  have h2 : (⟨u⟩ : String) ≠ "" := by
    intro hcon
    have := congrArg String.data hcon
    simp at this
    exact hne this
  have h3 : (⟨u ++ ['/']⟩ : String) ≠ "" := by
    intro hcon
    have := congrArg String.data hcon
    simp at this
  constructor
  · simp only [FbShare.normalize_post_url, h1, h2, if_neg]
    have ht1 : (u ++ '?' :: qs).takeWhile FbShare.notQM = u :=
      takeWhile_append_stop _ u qs '?' hp (by simp [FbShare.notQM])
    have ht2 : u.takeWhile FbShare.notQM = u := takeWhile_all _ u hp
    simp [ht1, ht2]
  · simp only [FbShare.normalize_post_url, h2, h3, if_neg]
    have hall : ∀ c ∈ u ++ ['/'], FbShare.notQM c = true := by
      intro c hc
      rcases List.mem_append.mp hc with h | h
      · exact hp c h
      · simp at h
        simp [FbShare.notQM, h]
    have ht3 : (u ++ ['/']).takeWhile FbShare.notQM = u ++ ['/'] :=
      takeWhile_all _ _ hall
    have ht2 : u.takeWhile FbShare.notQM = u := takeWhile_all _ u hp
    simp only [ht3, ht2]
    intro hcon
    have := congrArg (fun s => s.data.length) hcon
    simp at this

theorem normalize_post_url_spec_witness :
    FbShare.normalize_post_url
        ⟨"https://x/y".data ++ '?' :: "fbclid=abc".data⟩ =
      FbShare.normalize_post_url ⟨"https://x/y".data⟩ ∧
    FbShare.normalize_post_url ⟨"https://x/y".data ++ ['/']⟩ ≠
      FbShare.normalize_post_url ⟨"https://x/y".data⟩ :=
  normalize_post_url_spec "https://x/y".data "fbclid=abc".data (by decide)
    (by decide)

theorem publishedIds_append_save (t : List Ev) (d : List (String × String)) :
    publishedIds (t ++ [Ev.save d]) = publishedIds t := by
  simp [publishedIds]

theorem publishedIds_cons_save (d : List (String × String)) (t : List Ev) :
    publishedIds (Ev.save d :: t) = publishedIds t := by
  simp [publishedIds]

theorem publishedIds_scraperLoop (md5hex : List Nat → String)
    (succ : BgScraper.Post → Bool) (now : String)
    (l : List BgScraper.Post) (d : List (String × String)) :
    publishedIds (BgScraper.scraperLoop md5hex succ now l d).2 =
      l.map (BgScraper.get_post_id md5hex) := by
  induction l generalizing d with
  | nil => rfl
  | cons p rest ih => simp [BgScraper.scraperLoop, publishedIds] at ih ⊢; simp [ih]

theorem publishedIds_fbShareLoop (succ : FbShare.SharePost → Bool)
    (now : String) (l : List FbShare.SharePost)
    (d : List (String × String)) :
    publishedIds (FbShare.fbShareLoop succ now l d).2 =
      l.map (fun p => FbShare.normalize_post_url p.url) := by
  induction l generalizing d with
  | nil => rfl
  | cons p rest ih =>
      cases hs : succ p <;>
        (simp [FbShare.fbShareLoop, hs, publishedIds] at ih ⊢; simp [ih])

/-- C7 counterexample: two distinct posts in one batch carrying the same
link (hence the same fingerprint) both survive the snapshot filter of
bg_scraper.py's main and both are published — the second one is not
excluded by the fingerprint its predecessor records mid-run. -/
theorem live_recheck_counterexample :
    BgScraper.get_post_id (fun _ => "H") ⟨some "https://a/1", some "t1"⟩ =
      BgScraper.get_post_id (fun _ => "H") ⟨some "https://a/1", some "t2"⟩ ∧
    (⟨some "https://a/1", some "t1"⟩ : BgScraper.Post) ≠
      ⟨some "https://a/1", some "t2"⟩ ∧
    (BgScraper.bgScraperRun (fun _ => "H") (fun _ => true) "" "T"
        [⟨some "https://a/1", some "t1"⟩, ⟨some "https://a/1", some "t2"⟩]
        Storage.missing).newPosts =
      [⟨some "https://a/1", some "t1"⟩, ⟨some "https://a/1", some "t2"⟩] ∧
    publishedIds
      (BgScraper.bgScraperRun (fun _ => "H") (fun _ => true) "" "T"
        [⟨some "https://a/1", some "t1"⟩, ⟨some "https://a/1", some "t2"⟩]
        Storage.missing).trace = ["https://a/1", "https://a/1"] := by
  refine ⟨?_, ?_, ?_, ?_⟩ <;> decide

/-- C7 amended: in both mains the dedup filter is evaluated once, against
the ledger snapshot taken after load and prune at the start of the run;
every item passing that filter is attempted, so a fingerprint recorded
mid-run does not exclude a later item of the same fingerprint in the same
batch (duplicates are only excluded in subsequent runs). -/
theorem snapshot_filtering (md5hex : List Nat → String)
    (succ : BgScraper.Post → Bool) (cutoff now : String)
    (posts : List BgScraper.Post) (storage : Storage)
    (succ2 : FbShare.SharePost → Bool) (cutoff2 now2 : String)
    (posts2 : List FbShare.SharePost) (storage2 : Storage) :
    (BgScraper.bgScraperRun md5hex succ cutoff now posts storage).newPosts =
      BgScraper.filterUnpublished md5hex
        (BgScraper.cleanup_old_posts cutoff
          (BgScraper.load_sent_posts storage)) posts ∧
    publishedIds
        (BgScraper.bgScraperRun md5hex succ cutoff now posts storage).trace =
      (BgScraper.filterUnpublished md5hex
        (BgScraper.cleanup_old_posts cutoff
          (BgScraper.load_sent_posts storage)) posts).map
        (BgScraper.get_post_id md5hex) ∧
    publishedIds
        (FbShare.fbShareRun succ2 cutoff2 now2 posts2 storage2).trace =
      (FbShare.fbShareNew
        (FbShare.cleanup_old_posts cutoff2
          (FbShare.load_shared_posts storage2)) posts2).map
        (fun p => FbShare.normalize_post_url p.url) := by
  refine ⟨rfl, ?_, ?_⟩
  · show publishedIds (_ ++ [Ev.save _]) = _
    rw [publishedIds_append_save, publishedIds_scraperLoop]
  · show publishedIds (Ev.save _ :: _) = _
    rw [publishedIds_cons_save, publishedIds_fbShareLoop]

theorem seleniumNew_id_ne (sent : List (String × String))
    (posts : List Selenium.SePost) (p : Selenium.SePost)
    (hp : p ∈ Selenium.seleniumNew sent posts) : p.id ≠ "" := by
  have h2 := (List.mem_filter.mp hp).2
  simp only [Bool.and_eq_true, bne_iff_ne] at h2
  exact h2.1

theorem seLoop_frame (succ : Selenium.SePost → Bool) (now k : String) :
    ∀ (l : List Selenium.SePost) (d : List (String × String)),
      (∀ p ∈ l, p.id ≠ k) →
      dictGet? k (Selenium.seLoop succ now l d).1 = dictGet? k d := by
  intro l
  induction l with
  | nil => intro d h; rfl
  | cons p rest ih =>
      intro d h
      have hp : k ≠ p.id := Ne.symm (h p (List.mem_cons_self p rest))
      have hr : ∀ q ∈ rest, q.id ≠ k :=
        fun q hq => h q (List.mem_cons_of_mem p hq)
      cases hs : succ p
      · simpa [Selenium.seLoop, hs] using ih d hr
      · have := ih (dictInsert p.id now d) hr
        simpa [Selenium.seLoop, hs, dictGet?_insert_ne p.id now k d hp]
          using this

theorem seleniumRun_frame (succ : Selenium.SePost → Bool)
    (cutoff now : String) (posts : List Selenium.SePost)
    (storage : Storage) :
    dictGet? "" (Selenium.seleniumRun succ cutoff now posts storage).finalLed =
      dictGet? ""
        (Selenium.cleanup_old_posts cutoff
          (Selenium.load_sent_posts storage)) := by
  have hnew : ∀ q ∈ Selenium.seleniumNew
      (Selenium.cleanup_old_posts cutoff (Selenium.load_sent_posts storage))
      posts, q.id ≠ "" :=
    fun q hq => seleniumNew_id_ne _ _ q hq
  simp only [Selenium.seleniumRun]
  rw [seLoop_frame succ now "" _ _
        (fun q hq => hnew q (List.mem_of_mem_filter hq)),
      seLoop_frame succ now "" _ _
        (fun q hq => hnew q (List.mem_of_mem_filter hq)),
      seLoop_frame succ now "" _ _
        (fun q hq => hnew q (List.mem_of_mem_filter hq))]

/-- C10: the Selenium scraper's `get_post_id` maps every empty/missing URL
to the empty string, returns the URL unchanged whenever the
source-specific extraction pattern does not match (and for unknown source
tags), and `main`'s filter keeps only posts with a non-empty id, so an
item whose id was derived from a missing URL is never selected for
publication and the ledger is unchanged at the empty fingerprint. -/
theorem selenium_get_post_id_spec :
    (∀ tag, Selenium.get_post_id "" tag = "") ∧
    (∀ url tag,
      (tag = "dziennik" →
        Selenium.reSearch Selenium.dziennikTry url.data = none →
        Selenium.get_post_id url tag = url) ∧
      (tag = "policja" →
        Selenium.reSearch Selenium.policjaTry url.data = none →
        Selenium.get_post_id url tag = url) ∧
      (tag = "tvwalbrzych" →
        Selenium.reSearch Selenium.tvwTry url.data = none →
        Selenium.get_post_id url tag = url) ∧
      (tag ≠ "dziennik" → tag ≠ "policja" → tag ≠ "tvwalbrzych" →
        Selenium.get_post_id url tag = url)) ∧
    (∀ (succ : Selenium.SePost → Bool) (cutoff now : String)
      (posts : List Selenium.SePost) (storage : Storage)
      (p : Selenium.SePost) (tag : String),
      p ∈ posts → p.id = Selenium.get_post_id "" tag →
      p ∉ (Selenium.seleniumRun succ cutoff now posts storage).newPosts ∧
      dictGet? ""
          (Selenium.seleniumRun succ cutoff now posts storage).finalLed =
        dictGet? ""
          (Selenium.cleanup_old_posts cutoff
            (Selenium.load_sent_posts storage))) := by
  have hempty : ∀ tag, Selenium.get_post_id "" tag = "" := by
    intro tag
    simp [Selenium.get_post_id]
  refine ⟨hempty, ?_, ?_⟩
  · intro url tag
    refine ⟨fun ht hm => ?_, fun ht hm => ?_, fun ht hm => ?_,
      fun h1 h2 h3 => ?_⟩ <;> by_cases hu : url = ""
    · rw [hu, hempty]
    · simp [Selenium.get_post_id, hu, ht, hm]
    · rw [hu, hempty]
    · simp [Selenium.get_post_id, hu, ht, hm]
    · rw [hu, hempty]
    · simp [Selenium.get_post_id, hu, ht, hm]
    · rw [hu, hempty]
    · simp [Selenium.get_post_id, hu, h1, h2, h3]
  · intro succ cutoff now posts storage p tag hmem hid
    have hid0 : p.id = "" := by rw [hid, hempty]
    constructor
    · intro hcon
      have hnp : (Selenium.seleniumRun succ cutoff now posts storage).newPosts =
          Selenium.seleniumNew
            (Selenium.cleanup_old_posts cutoff
              (Selenium.load_sent_posts storage)) posts := rfl
      rw [hnp] at hcon
      exact seleniumNew_id_ne _ _ p hcon hid0
    · exact seleniumRun_frame succ cutoff now posts storage

theorem selenium_get_post_id_spec_witness :
    Selenium.get_post_id "" "dziennik" = "" ∧
    Selenium.get_post_id "https://other.site/abc" "dziennik" =
      "https://other.site/abc" ∧
    (⟨"", "t", "dziennik", ""⟩ : Selenium.SePost) ∉
      (Selenium.seleniumRun (fun _ => true) "" "T"
        [⟨"", "t", "dziennik", ""⟩] Storage.missing).newPosts :=
  ⟨selenium_get_post_id_spec.1 "dziennik",
   (selenium_get_post_id_spec.2.1 "https://other.site/abc" "dziennik").1
     rfl (by decide),
   (selenium_get_post_id_spec.2.2 (fun _ => true) "" "T"
     [⟨"", "t", "dziennik", ""⟩] Storage.missing
     ⟨"", "t", "dziennik", ""⟩ "dziennik" (by simp) (by decide)).1⟩
